import Mathlib

/-!
Verification of docforge's concurrent-dispatch core against its source:
the link-validation worker and its 429 backoff loop (pkg/reactor
validator, `validatorWorker.Validate` / `doValidation`), the download
scheduler (pkg/nodeplugins/downloader, `downloadScheduler.Schedule`),
the document worker (pkg/reactor, `DocumentWorker.Work`), manifest
parsing with metadata (pkg/api, `ParseWithMetadata` and
`getLastNVersions`), and the adaptive dispatcher (`Backend.Dispatch`,
whose implementation is absent from the sources at hand and is
modelled from the specification).

Go slices of bytes are `List Nat`; Go errors are `Option String` or
`Except String`; an HTTP client is a map from the index of the `Do`
call to a network error or a response status code.  Error-message texts
follow the source, with punctuation elided where needed.
-/

namespace Docforge

/-! ## Link validation: pkg/reactor `validatorWorker.Validate`, `doValidation` -/

/-- An HTTP client: the index of the `Do` call maps to either a
network-level error (`Except.error`) or the status code of the
response (`Except.ok`). -/
def Client : Type := Nat → Except String Nat

/-- The fixed backoff delay table `intervals := []int{1, 5, 10, 20}` of
`doValidation`. -/
def intervals : List Nat := [1, 5, 10, 20]

/-- Observable trace of one `doValidation` call: how many `client.Do`
calls were issued, how many response bodies were closed, the sleep
durations in order, the final result (network error or last status
code), and the client call index after the call (the call counter
threads through the HEAD and GET phases of `Validate`). -/
structure DVTrace where
  requests : Nat
  closed : Nat
  sleeps : List Nat
  result : Except String Nat
  nextIdx : Nat

/-- The retry loop of `doValidation`:
`for resp.StatusCode == http.StatusTooManyRequests && attempts < len(intervals)-1`.
`fuel` stands for `len(intervals)-1 - attempts`, so `fuel > 0` exactly when
`attempts < len(intervals)-1`.  The sleep duration is
`intervals[attempts] + rand.Intn(attempts+1)`; the random draw is modelled
by the oracle `jitter idx attempts` where `idx` is the call index of the
request issued right after the sleep.  Each successfully returned
response body is closed (`resp.Body.Close()`) right after the `Do`. -/
def doValidationGo (client : Client) (jitter : Nat → Nat → Nat) :
    Nat → Nat → Nat → Nat → Nat → Nat → List Nat → DVTrace
  | 0, _, idx, status, requests, closed, sleeps =>
      ⟨requests, closed, sleeps.reverse, .ok status, idx⟩
  | fuel + 1, attempts, idx, status, requests, closed, sleeps =>
      if status = 429 then
        let d := intervals.getD attempts 0 + jitter idx attempts
        match client idx with
        | .error e => ⟨requests + 1, closed, (d :: sleeps).reverse, .error e, idx + 1⟩
        | .ok s =>
            doValidationGo client jitter fuel (attempts + 1) (idx + 1) s
              (requests + 1) (closed + 1) (d :: sleeps)
      else ⟨requests, closed, sleeps.reverse, .ok status, idx⟩

/-- `doValidation(req, client)`: issue the request; on a network error
return it to the caller (no body to close); otherwise close the body
and enter the 429 retry loop with `attempts := 0`. -/
def doValidation (client : Client) (jitter : Nat → Nat → Nat) (idx : Nat) : DVTrace :=
  match client idx with
  | .error e => ⟨1, 0, [], .error e, idx + 1⟩
  | .ok s => doValidationGo client jitter (intervals.length - 1) 0 (idx + 1) s 1 1 []

/-- `ValidationTask`: `host` is `LinkUrl.Hostname()` and `url` is
`LinkUrl.String()` of the already-parsed `*urls.URL`. -/
structure ValidationTask where
  host : String
  url : String
  LinkDestination : String
  ContentSourcePath : String

/-- A resource handler as `Validate` uses it: `BuildAbsLink` applied to
the task's content source path and absolute link destination (an error
signals that the destination is not locally resolvable), and
`GetClient`. -/
structure Handler where
  BuildAbsLink : String → String → Except String String
  GetClient : Option Client

/-- Observable trace of one `Validate` call: a hard error returned to
the caller (`some`), or `none` for a nil return; the total request,
body-close and logged-warning counts; the sleeps in order. -/
structure VTrace where
  result : Option String
  requests : Nat
  closed : Nat
  warnings : Nat
  sleeps : List Nat

/-- `strings.Contains s sub`: some suffix of `s` starts with `sub`,
modelled over the character lists. -/
def containsSubstr (s sub : String) : Bool :=
  s.toList.tails.any (fun t => sub.toList.isPrefixOf t)

/-- The sample-host short circuit of `Validate`:
`host == "localhost" || host == "127.0.0.1" || host == "1.2.3.4" || strings.Contains(host, "foo.bar")`. -/
def isSampleHost (host : String) : Bool :=
  host == "localhost" || host == "127.0.0.1" || host == "1.2.3.4" ||
    containsSubstr host ("foo.bar")

/-- The HTTP part of `Validate`: try HEAD via `doValidation`; a network
error is logged as a warning and `Validate` returns nil.  On a status
`>= 400` other than 401/403, retry with GET via `doValidation`
(continuing the same client call counter); a network error there is
again a warning and nil; a final status `>= 400` other than 401/403 is
a warning and nil.  Request construction (`http.NewRequestWithContext`)
is modelled as always succeeding, as it does for the already-parsed
task URL. -/
def validateHTTP (client : Client) (jitter : Nat → Nat → Nat) : VTrace :=
  let t1 := doValidation client jitter 0
  match t1.result with
  | .error _ => ⟨none, t1.requests, t1.closed, 1, t1.sleeps⟩
  | .ok s1 =>
    if 400 ≤ s1 ∧ s1 ≠ 403 ∧ s1 ≠ 401 then
      let t2 := doValidation client jitter t1.nextIdx
      match t2.result with
      | .error _ =>
          ⟨none, t1.requests + t2.requests, t1.closed + t2.closed, 1, t1.sleeps ++ t2.sleeps⟩
      | .ok s2 =>
        if 400 ≤ s2 ∧ s2 ≠ 403 ∧ s2 ≠ 401 then
          ⟨none, t1.requests + t2.requests, t1.closed + t2.closed, 1, t1.sleeps ++ t2.sleeps⟩
        else
          ⟨none, t1.requests + t2.requests, t1.closed + t2.closed, 0, t1.sleeps ++ t2.sleeps⟩
    else ⟨none, t1.requests, t1.closed, 0, t1.sleeps⟩

/-- `validatorWorker.Validate` for a well-typed `*ValidationTask`:
skip sample hosts; if the registry has a handler for the absolute link
destination and `BuildAbsLink` succeeds, the destination exists locally
and the result is nil with no request; otherwise use the handler's
client if any, else the worker's `httpClient`, and run the HEAD/GET
attempt sequence. -/
def Validate (registry : String → Option Handler) (httpClient : Client)
    (jitter : Nat → Nat → Nat) (task : ValidationTask) : VTrace :=
  if isSampleHost task.host then ⟨none, 0, 0, 0, []⟩
  else
    match registry task.url with
    | some handler =>
      match handler.BuildAbsLink task.ContentSourcePath task.url with
      | .ok _ => ⟨none, 0, 0, 0, []⟩
      | .error _ =>
        match handler.GetClient with
        | some hc => validateHTTP hc jitter
        | none => validateHTTP httpClient jitter
    | none => validateHTTP httpClient jitter

/-! ## Download scheduler: pkg/nodeplugins/downloader `downloadScheduler.Schedule` -/

/-- `downloadTask{source, destinationPath}`. -/
structure DownloadTask where
  source : String
  destinationPath : String

/-- `downloadScheduler.Schedule`: build the task, enqueue it with the
queue's `AddTask`, and return a formatted error exactly when `AddTask`
returns `false`.  The queue is modelled by its `AddTask` behaviour. -/
def Schedule (addTask : DownloadTask → Bool) (source destinationPath : String) :
    Option String :=
  let task : DownloadTask := ⟨source, destinationPath⟩
  if addTask task then none
  else some ("scheduling download of " ++ task.source ++ " failed")

/-! ## Document worker: pkg/reactor `DocumentWorker.Work` -/

/-- Which collaborator produced the error wrapped in a `jobs.WorkerError`. -/
inductive WErrKind where
  | fromReader (e : String)
  | fromReconcile (e : String)
  | fromProcess (e : String)
  | fromWrite (e : String)
deriving DecidableEq

/-- `jobs.WorkerError`: an underlying error plus a numeric code
(`jobs.NewWorkerError(err, 0)` throughout `Work`). -/
structure WorkerError where
  err : WErrKind
  code : Nat
deriving DecidableEq

/-- A `ContentSelector` of a node: its `Source` URI. -/
structure ContentSelector where
  Source : String

/-- The slice of an `api.Node` that `Work` reads. -/
structure Node where
  Name : String
  ContentSelectors : List ContentSelector

/-- Go map assignment `m[k] = v` on a `map[string]T` modelled as an
association list: replace the value under an existing key, else append.
(Go map iteration order is unspecified; insertion order here is one
admissible order, and nothing proved below depends on it.) -/
def mapUpd {α : Type} (m : List (String × α)) (k : String) (v : α) :
    List (String × α) :=
  if m.any (fun p => p.1 == k) then m.map (fun p => if p.1 == k then (k, v) else p)
  else m ++ [(k, v)]

/-- The per-content-source loop of `DocumentWorker.Work`: read the
source; `if len(sourceBlob) == 0 { continue }` comes BEFORE the check
of the read error, so an error accompanied by zero bytes is skipped;
then the error check, then `ReconcileLinks`, then `blobs[source] = newBlob`. -/
def workReadSources (reader : String → List Nat × Option String)
    (reconcileLinks : String → List Nat → Except String (List Nat)) :
    List ContentSelector → List (String × List Nat) →
      Except WorkerError (List (String × List Nat))
  | [], blobs => .ok blobs
  | content :: rest, blobs =>
    if (reader content.Source).1.length = 0 then
      workReadSources reader reconcileLinks rest blobs
    else
      match (reader content.Source).2 with
      | some e => .error ⟨.fromReader e, 0⟩
      | none =>
        match reconcileLinks content.Source (reader content.Source).1 with
        | .error e => .error ⟨.fromReconcile e, 0⟩
        | .ok newBlob =>
            workReadSources reader reconcileLinks rest (mapUpd blobs content.Source newBlob)

/-- `DocumentWorker.Work` for a well-typed `*DocumentWorkTask`: when the
node has content selectors, run the read loop; if it produced no blobs,
return nil without writing; otherwise concatenate the blobs, run the
optional `Processor`, and write.  With no content selectors the empty
blob is written.  `pathOf` stands for the collaborator
`utilnode.Path(task.Node, "/")`. -/
def Work (reader : String → List Nat × Option String)
    (reconcileLinks : String → List Nat → Except String (List Nat))
    (process : Option (List Nat → Node → Except String (List Nat)))
    (write : String → String → List Nat → Except String Unit)
    (pathOf : Node → String) (node : Node) : Option WorkerError :=
  if node.ContentSelectors.length > 0 then
    match workReadSources reader reconcileLinks node.ContentSelectors [] with
    | .error we => some we
    | .ok blobs =>
      if blobs.length = 0 then none
      else
        let sourceBlob := blobs.foldl (fun acc p => acc ++ p.2) []
        match (match process with
               | some p => p sourceBlob node
               | none => .ok sourceBlob) with
        | .error e => some ⟨.fromProcess e, 0⟩
        | .ok sb =>
          match write node.Name (pathOf node) sb with
          | .error e => some ⟨.fromWrite e, 0⟩
          | .ok _ => none
  else
    match write node.Name (pathOf node) [] with
    | .error e => some ⟨.fromWrite e, 0⟩
    | .ok _ => none

/-! ## Manifest parsing: pkg/api `ParseWithMetadata`, `getLastNVersions` -/

/-- The external `github.com/Masterminds/semver` library as
`getLastNVersions` consumes it: parsing, accessors, ordering, and the
in-place `sort.Sort(sort.Reverse(semver.Collection(versions)))` (Go's
in-place sort reorders the slice, so it preserves its length). -/
structure SemverOps (V : Type) where
  NewVersion : String → Except String V
  Major : V → Nat
  Minor : V → Nat
  Original : V → String
  sortDescending : List V → List V
  LessThan : V → V → Bool

/-- The tag-parsing loop of `getLastNVersions`: the first parse failure
returns the error `Error parsing version: <tag>`. -/
def parseVersions {V : Type} (ops : SemverOps V) : List String → Except String (List V)
  | [] => .ok []
  | t :: rest =>
    match ops.NewVersion t with
    | .error _ => .error ("Error parsing version: " ++ t)
    | .ok v =>
      match parseVersions ops rest with
      | .error e => .error e
      | .ok vs => .ok (v :: vs)

/-- The collection loop of `getLastNVersions`:
`for i := 1; i < len(versions) && len(latestVersions) < n; i++`,
appending `versions[i].Original()` when it is below the running
major.minor constraint and moving the constraint down. -/
def lastNLoop {V : Type} (ops : SemverOps V) :
    List V → V → List String → Int → Except String (List String)
  | [], _, latest, _ => .ok latest
  | v :: rest, c, latest, n =>
    if (latest.length : Int) < n then
      if ops.LessThan v c then
        match ops.NewVersion (toString (ops.Major v) ++ "." ++ toString (ops.Minor v)) with
        | .error e => .error e
        | .ok c2 => lastNLoop ops rest c2 (latest ++ [ops.Original v]) n
      else lastNLoop ops rest c latest n
    else .ok latest

/-- `getLastNVersions(tags, n)`: negative `n` errors; `n = 0` yields the
empty list; empty `tags` errors; otherwise parse all tags, sort
descending, seed the result with the first version and the constraint
with its `major.minor`, run the collection loop, and error when fewer
than `n` versions were collected.  (The empty-after-sort branch is
unreachable for the in-place library sort.) -/
def getLastNVersions {V : Type} (ops : SemverOps V) (tags : List String) (n : Int) :
    Except String (List String) :=
  if n < 0 then .error ("n cant be negative")
  else if n = 0 then .ok []
  else if tags.length = 0 then
    .error ("number of tags is greater than the actual number of all tags")
  else
    match parseVersions ops tags with
    | .error e => .error e
    | .ok versions =>
      match ops.sortDescending versions with
      | [] => .error ("sort returned empty")
      | firstVersion :: rest =>
        match ops.NewVersion
            (toString (ops.Major firstVersion) ++ "." ++ toString (ops.Minor firstVersion)) with
        | .error e => .error e
        | .ok c =>
          match lastNLoop ops rest c [ops.Original firstVersion] n with
          | .error e => .error e
          | .ok latestVersions =>
            if n > (latestVersions.length : Int) then
              .error ("number of tags is greater than the actual number of tags with latest patch")
            else .ok latestVersions

/-- Outcome of a Go call that may panic instead of returning. -/
inductive GoRet (α : Type) where
  | panicked (msg : String)
  | ret (a : α)

/-- Go map assignment on a possibly-nil map (`nil` is the zero value
before `SetFlagsVariables` runs): assigning to a nil map is a runtime
panic. -/
def mapAssign (m : Option (List (String × String))) (k v : String) :
    GoRet (List (String × String)) :=
  match m with
  | none => .panicked ("assignment to entry in nil map")
  | some l => .ret (mapUpd l k v)

/-- `api.ParseWithMetadata`: resolve the last `nTags` versions, build
`versionList = targetBranch :: tags`, join with commas, execute
`flagsVars["versions"] = versions` on the package-global map (explicit
state `flagsVars` here; `none` models the nil map), then delegate to
`Parse`.  `Parse`'s template resolution and YAML unmarshalling are
external collaborators, abstracted as `parseFn` applied to the updated
flags map and the manifest bytes. -/
def ParseWithMetadata {V D : Type} (ops : SemverOps V)
    (parseFn : List (String × String) → List Nat → Except String D)
    (flagsVars : Option (List (String × String)))
    (b : List Nat) (allTags : List String) (nTags : Int) (targetBranch : String) :
    GoRet (Except String D) :=
  match getLastNVersions ops allTags nTags with
  | .error e => .ret (.error e)
  | .ok tags =>
    let versionList := targetBranch :: tags
    let versions := String.intercalate ("," ) versionList
    match mapAssign flagsVars ("versions") versions with
    | .panicked m => .panicked m
    | .ret fv => .ret (parseFn fv b)

/-! ## Adaptive dispatcher: pkg/reactor `Backend.Dispatch` -/

/-- Modelled from the spec: `reactor.WorkerError` of the adaptive
dispatcher, whose implementation is not among the sources (only
`backend_test.go` is) — "wraps an underlying error with a numeric
code/attempt marker" (spec §3); `newerror(err, code)` in the tests. -/
structure BackendWorkerError where
  msg : String
  code : Int
deriving DecidableEq

/-- Modelled from the spec: the distinguishable outcomes of `Dispatch`
(spec §4.2, §7): the configuration-validation panic, the context
deadline/cancellation error, an application `WorkerError`, or success. -/
inductive DispatchResult where
  | panicked
  | ctxDeadline
  | workerErr (e : BackendWorkerError)
  | ok
deriving DecidableEq

/-- `Backend{MinWorkers, MaxWorkers}`; the `Worker` is passed to
`Dispatch` below as a function of the invocation number. -/
structure Backend where
  MinWorkers : Nat
  MaxWorkers : Nat

/-- Modelled from the spec: the fail-fast task loop of `Dispatch` —
"each input maps to exactly one invocation of the Worker contract; the
first non-nil WorkerError returned by any invocation cancels
outstanding work and becomes the Dispatch result" (spec §4.2).  The
worker is a function of the 1-based invocation number (the tests count
invocations through an atomic counter); the pair returned is the
Dispatch result together with the total number of invocations. -/
def dispatchGo (worker : Nat → Option BackendWorkerError) :
    Nat → Nat → DispatchResult × Nat
  | 0, invoked => (.ok, invoked)
  | n + 1, invoked =>
    match worker (invoked + 1) with
    | some e => (.workerErr e, invoked + 1)
    | none => dispatchGo worker n (invoked + 1)

/-- Modelled from the spec: `Backend.Dispatch(ctx, inputs)` — the
implementation (pkg/reactor backend of gardener/docode) is not among
the sources; only `backend_test.go` is.  Spec §4.2: `MinWorkers >
MaxWorkers` "must fail immediately and loudly (abnormal termination of
the call), never attempt partial execution"; `MinWorkers == MaxWorkers
== 0` with non-empty input "must never silently hang — it must ...
rely on the caller's context timeout to terminate the call with a
deadline/cancellation error"; otherwise the batch runs fail-fast with
one invocation per input.  The concurrent pool is abstracted by a
sequential fail-fast fold, which realises every observable the claims
name (results, zero-invocation failures, exact and bounded invocation
counts); `inputs` is the length of the input list. -/
def Dispatch (b : Backend) (worker : Nat → Option BackendWorkerError)
    (inputs : Nat) : DispatchResult × Nat :=
  if b.MaxWorkers < b.MinWorkers then (.panicked, 0)
  else if b.MaxWorkers = 0 ∧ 0 < inputs then (.ctxDeadline, 0)
  else dispatchGo worker inputs 0

/-- `expectedError = newerror(errors.New("test"), 123)` of
`backend_test.go`. -/
def expectedError : BackendWorkerError := ⟨"test", 123⟩

/-- `faultySender` of `backend_test.go`: invocations 3, 5 and 8 return
`expectedError`, all others nil. -/
def faultySender (k : Nat) : Option BackendWorkerError :=
  if k = 3 ∨ k = 5 ∨ k = 8 then some expectedError else none

/-! ## Concrete fixtures used by witness theorems -/

/-- A reader whose source `a` yields zero bytes together with an error
and whose other sources yield one byte together with an error. -/
def reader0 : String → List Nat × Option String :=
  fun s => if s = "a" then ([], some ("skipped")) else ([1], some ("boom"))

/-- A node with two content sources `a` and `b`. -/
def node0 : Node := ⟨"n", [⟨"a"⟩, ⟨"b"⟩]⟩

/-- A trivial semver library instance over `Unit`. -/
def semverOpsUnit : SemverOps Unit :=
  ⟨fun _ => .error ("parse"), fun _ => 0, fun _ => 0, fun _ => "", id, fun _ _ => false⟩

end Docforge

namespace Docforge

/-! ## Theorems -/

/-- Any registry miss and non-sample host routes `Validate` to the
HEAD/GET attempt sequence over the worker's own client. -/
theorem validate_http_path (registry : String → Option Handler) (c : Client)
    (j : Nat → Nat → Nat) (t : ValidationTask)
    (hhost : isSampleHost t.host = false) (hreg : registry t.url = none) :
    Validate registry c j t = validateHTTP c j := by
  simp [Validate, hhost, hreg]

/-- Claim C5 counterexample: with a server answering 429 to every
attempt (jitter draws all zero), `doValidation` sleeps only the delays
1, 5 and 10 — the backoff table `[1, 5, 10, 20]` is never exhausted,
the 20-second entry is never used, refuting the claim that retries
stop only once the table is exhausted. -/
theorem doValidation_backoff_table_not_exhausted :
    (doValidation (fun _ => .ok 429) (fun _ _ => 0) 0).sleeps = [1, 5, 10] ∧
    (doValidation (fun _ => .ok 429) (fun _ _ => 0) 0).sleeps ≠ [1, 5, 10, 20] := by
  constructor
  · rfl
  · decide

/-- Claim C5 (amended): for a link whose server returns 429 on every
attempt, each HTTP method attempt retries the same request only while
`attempts < len(intervals)-1`, so per method phase there are 4 requests
and 3 sleeps of `1, 5, 10` seconds plus the jitter drawn with bound
`attempts+1`; the 20-second entry is never used.  The HEAD phase then
escalates to GET (429 is not 401/403), which behaves the same; the
worker finally logs a warning and gives up without returning an error,
having closed every returned response body. -/
theorem validate_429_retries_then_gives_up (registry : String → Option Handler)
    (j : Nat → Nat → Nat) (t : ValidationTask)
    (hhost : isSampleHost t.host = false) (hreg : registry t.url = none) :
    Validate registry (fun _ => .ok 429) j t =
      ⟨none, 8, 8, 1, [1 + j 1 0, 5 + j 2 1, 10 + j 3 2, 1 + j 5 0, 5 + j 6 1, 10 + j 7 2]⟩ := by
  rw [validate_http_path registry _ j t hhost hreg]
  rfl

/-- Claim C5 witness: the amended theorem at a concrete task, registry
and zero jitter. -/
theorem validate_429_retries_then_gives_up_witness :
    Validate (fun _ => none) (fun _ => .ok 429) (fun _ _ => 0)
      ⟨"example.com", "https://example.com/a", "d", "s"⟩ =
      ⟨none, 8, 8, 1, [1, 5, 10, 1, 5, 10]⟩ :=
  validate_429_retries_then_gives_up (fun _ => none) (fun _ _ => 0)
    ⟨"example.com", "https://example.com/a", "d", "s"⟩ (by decide) rfl

/-- Claim C6: for a link whose first (HEAD) attempt returns 401 or 403,
`Validate` issues exactly one request, performs no GET escalation, and
returns nil. -/
theorem validate_auth_status_single_request (registry : String → Option Handler)
    (c : Client) (j : Nat → Nat → Nat) (t : ValidationTask) (s : Nat)
    (hhost : isSampleHost t.host = false) (hreg : registry t.url = none)
    (hc : c 0 = .ok s) (hs : s = 401 ∨ s = 403) :
    Validate registry c j t = ⟨none, 1, 1, 0, []⟩ := by
  rw [validate_http_path registry c j t hhost hreg]
  rcases hs with hs | hs <;> subst hs <;>
    simp [validateHTTP, doValidation, hc, doValidationGo, intervals]

/-- Claim C6 witness: a client answering 401 on its first call. -/
theorem validate_auth_status_single_request_witness :
    Validate (fun _ => none) (fun _ => .ok 401) (fun _ _ => 0)
      ⟨"example.com", "https://example.com/a", "d", "s"⟩ = ⟨none, 1, 1, 0, []⟩ :=
  validate_auth_status_single_request (fun _ => none) (fun _ => .ok 401) (fun _ _ => 0)
    ⟨"example.com", "https://example.com/a", "d", "s"⟩ 401 (by decide) rfl rfl (Or.inl rfl)

/-- Claim C7: when the HTTP client fails at the network level on the
first (HEAD) attempt, `Validate` logs one warning and returns nil —
the failure never surfaces as a hard error. -/
theorem validate_network_error_soft (registry : String → Option Handler)
    (c : Client) (j : Nat → Nat → Nat) (t : ValidationTask) (e : String)
    (hhost : isSampleHost t.host = false) (hreg : registry t.url = none)
    (hc : c 0 = .error e) :
    Validate registry c j t = ⟨none, 1, 0, 1, []⟩ := by
  rw [validate_http_path registry c j t hhost hreg]
  simp [validateHTTP, doValidation, hc]

/-- Claim C7 witness: a client erroring on its first call. -/
theorem validate_network_error_soft_witness :
    Validate (fun _ => none) (fun _ => Except.error ("fake error")) (fun _ _ => 0)
      ⟨"example.com", "https://example.com/a", "d", "s"⟩ = ⟨none, 1, 0, 1, []⟩ :=
  validate_network_error_soft (fun _ => none) (fun _ => Except.error ("fake error"))
    (fun _ _ => 0) ⟨"example.com", "https://example.com/a", "d", "s"⟩ "fake error"
    (by decide) rfl rfl

/-- Claim C8: `downloadScheduler.Schedule` returns a non-nil error
exactly when the queue's `AddTask` returns `false`, and returns nil
when `AddTask` accepts the task. -/
theorem schedule_surfaces_rejection (addTask : DownloadTask → Bool)
    (source destinationPath : String) :
    ((Schedule addTask source destinationPath).isSome = true ↔
      addTask ⟨source, destinationPath⟩ = false) ∧
    (addTask ⟨source, destinationPath⟩ = true →
      Schedule addTask source destinationPath = none) := by
  unfold Schedule
  cases h : addTask ⟨source, destinationPath⟩ <;> simp [h]

/-- The read loop of `DocumentWorker.Work` reports a reader error only
for a source whose read returned a non-empty byte slice alongside the
error; a read of zero bytes is skipped before its error is inspected. -/
theorem workReadSources_reader_error (reader : String → List Nat × Option String)
    (rl : String → List Nat → Except String (List Nat)) :
    ∀ (cs : List ContentSelector) (blobs : List (String × List Nat)) (e : String),
      workReadSources reader rl cs blobs = .error ⟨.fromReader e, 0⟩ →
      ∃ c, c ∈ cs ∧ (reader c.Source).2 = some e ∧ (reader c.Source).1 ≠ [] := by
  intro cs
  induction cs with
  | nil =>
    intro blobs e h
    simp [workReadSources] at h
  | cons content rest ih =>
    intro blobs e h
    rw [workReadSources] at h
    by_cases hlen : (reader content.Source).1.length = 0
    · rw [if_pos hlen] at h
      obtain ⟨c, hc, h1, h2⟩ := ih blobs e h
      exact ⟨c, List.mem_cons_of_mem _ hc, h1, h2⟩
    · rw [if_neg hlen] at h
      cases h2 : (reader content.Source).2 with
      | none =>
        rw [h2] at h
        cases h3 : rl content.Source (reader content.Source).1 with
        | error e2 =>
          rw [h3] at h
          simp at h
        | ok nb =>
          rw [h3] at h
          obtain ⟨c, hc, ha, hb⟩ := ih _ e h
          exact ⟨c, List.mem_cons_of_mem _ hc, ha, hb⟩
      | some e2 =>
        rw [h2] at h
        simp only [Except.error.injEq, WorkerError.mk.injEq, WErrKind.fromReader.injEq] at h
        refine ⟨content, List.mem_cons_self _ _, ?_, ?_⟩
        · rw [h2, h.1]
        · intro hnil
          apply hlen
          rw [hnil]
          rfl

/-- Claim C9: `DocumentWorker.Work` propagates a `WorkerError` wrapping
a Reader error only when the accompanying byte slice was non-empty;
a Reader error alongside zero bytes is skipped (the `continue` on an
empty read precedes the error check). -/
theorem work_reader_error_requires_bytes (reader : String → List Nat × Option String)
    (rl : String → List Nat → Except String (List Nat))
    (process : Option (List Nat → Node → Except String (List Nat)))
    (write : String → String → List Nat → Except String Unit)
    (pathOf : Node → String) (node : Node) (e : String)
    (h : Work reader rl process write pathOf node = some ⟨.fromReader e, 0⟩) :
    ∃ c, c ∈ node.ContentSelectors ∧ (reader c.Source).2 = some e ∧
      (reader c.Source).1 ≠ [] := by
  unfold Work at h
  by_cases hcs : node.ContentSelectors.length > 0
  · rw [if_pos hcs] at h
    cases hr : workReadSources reader rl node.ContentSelectors [] with
    | error we =>
      simp only [hr] at h
      have hwe : we = ⟨.fromReader e, 0⟩ := by
        simpa using h
      exact workReadSources_reader_error reader rl node.ContentSelectors [] e (hwe ▸ hr)
    | ok blobs =>
      simp only [hr] at h
      by_cases hb : blobs.length = 0
      · rw [if_pos hb] at h
        simp at h
      · rw [if_neg hb] at h
        split at h
        · simp at h
        · split at h
          · simp at h
          · simp at h
  · rw [if_neg hcs] at h
    split at h
    · simp at h
    · simp at h

/-- Claim C9 witness: source `a` reads zero bytes with an error and is
skipped; source `b` reads one byte with error `boom`, which is the
error `Work` reports, and its byte slice is non-empty. -/
theorem work_reader_error_requires_bytes_witness :
    ∃ c, c ∈ node0.ContentSelectors ∧ (reader0 c.Source).2 = some ("boom") ∧
      (reader0 c.Source).1 ≠ [] :=
  work_reader_error_requires_bytes reader0 (fun _ b => .ok b) none
    (fun _ _ _ => .ok ()) (fun _ => "p") node0 ("boom") (by decide)

/-- Claim C10: `ParseWithMetadata` writes the computed version list
into the flags map before delegating to `Parse`: with the package
global still nil (no `SetFlagsVariables` call) every call whose
`nTags` resolve successfully panics on the nil-map assignment instead
of returning an error, and with a non-nil map `Parse` runs over the
map updated at key `versions`. -/
theorem parseWithMetadata_nil_map_panics {V D : Type} (ops : SemverOps V)
    (parseFn : List (String × String) → List Nat → Except String D)
    (flags : List (String × String)) (b : List Nat) (allTags : List String)
    (nTags : Int) (targetBranch : String) (tags : List String)
    (h : getLastNVersions ops allTags nTags = .ok tags) :
    ParseWithMetadata ops parseFn none b allTags nTags targetBranch =
      .panicked ("assignment to entry in nil map") ∧
    ParseWithMetadata ops parseFn (some flags) b allTags nTags targetBranch =
      .ret (parseFn (mapUpd flags ("versions")
        (String.intercalate ("," ) (targetBranch :: tags))) b) := by
  unfold ParseWithMetadata mapAssign
  rw [h]
  exact ⟨rfl, rfl⟩

/-- Claim C10 witness: `nTags = 0` resolves to the empty version list;
the nil map panics and the non-nil map delegates to `Parse`. -/
theorem parseWithMetadata_nil_map_panics_witness :
    ParseWithMetadata semverOpsUnit (fun _ _ => Except.ok ()) none [] [] 0 ("master") =
      .panicked ("assignment to entry in nil map") ∧
    ParseWithMetadata semverOpsUnit (fun _ _ => Except.ok ()) (some []) [] [] 0 ("master") =
      .ret (Except.ok ()) :=
  parseWithMetadata_nil_map_panics semverOpsUnit (fun _ _ => Except.ok ()) [] [] [] 0
    ("master") [] rfl

/-- Claim C1: for a batch of 10 inputs dispatched fail-fast where the
worker's invocations 3, 5 and 8 return a non-nil `WorkerError`,
`Dispatch` returns that first `WorkerError` (work after it is
cancelled: only 3 invocations occur) and the total number of worker
invocations is at most 10. -/
theorem dispatch_error_fail_fast :
    Dispatch ⟨0, 10⟩ faultySender 10 = (.workerErr expectedError, 3) ∧
    (Dispatch ⟨0, 10⟩ faultySender 10).2 ≤ 10 := by
  constructor
  · rfl
  · decide

/-- Claim C2: for every configuration with `MinWorkers > MaxWorkers`
and non-empty input, `Dispatch` fails by abnormal termination (panic)
with zero worker invocations. -/
theorem dispatch_wrong_workers_range (b : Backend)
    (worker : Nat → Option BackendWorkerError) (inputs : Nat)
    (hlt : b.MaxWorkers < b.MinWorkers) (_hne : 0 < inputs) :
    Dispatch b worker inputs = (.panicked, 0) := by
  unfold Dispatch
  rw [if_pos hlt]

/-- Claim C2 witness: `MinWorkers = 10 > MaxWorkers = 0` with 10
inputs. -/
theorem dispatch_wrong_workers_range_witness :
    Dispatch ⟨10, 0⟩ (fun _ => none) 10 = (.panicked, 0) :=
  dispatch_wrong_workers_range ⟨10, 0⟩ (fun _ => none) 10 (by decide) (by decide)

/-- Claim C3: with `MinWorkers = MaxWorkers = 0` and non-empty input
under a context with a deadline, `Dispatch` executes zero worker
invocations and terminates with the context deadline error. -/
theorem dispatch_no_workers (worker : Nat → Option BackendWorkerError)
    (inputs : Nat) (h : 0 < inputs) :
    Dispatch ⟨0, 0⟩ worker inputs = (.ctxDeadline, 0) := by
  simp [Dispatch, h]

/-- Claim C3 witness: 10 inputs, no workers. -/
theorem dispatch_no_workers_witness :
    Dispatch ⟨0, 0⟩ (fun _ => none) 10 = (.ctxDeadline, 0) :=
  dispatch_no_workers (fun _ => none) 10 (by decide)

/-- The fail-fast loop invokes a never-failing worker once per input. -/
theorem dispatchGo_ok_of_none (worker : Nat → Option BackendWorkerError)
    (h : ∀ k, worker k = none) :
    ∀ (n invoked : Nat), dispatchGo worker n invoked = (.ok, invoked + n) := by
  intro n
  induction n with
  | zero =>
    intro invoked
    simp [dispatchGo]
  | succ m ih =>
    intro invoked
    rw [dispatchGo, h (invoked + 1), ih (invoked + 1)]
    simp only [Prod.mk.injEq, true_and]
    omega

/-- Claim C4: 20 inputs, `MinWorkers = 0`, `MaxWorkers = 40`, a worker
that never errors: `Dispatch` returns no error and the worker is
invoked exactly 20 times — one invocation per input. -/
theorem dispatch_adaptive (worker : Nat → Option BackendWorkerError)
    (h : ∀ k, worker k = none) :
    Dispatch ⟨0, 40⟩ worker 20 = (.ok, 20) := by
  unfold Dispatch
  rw [dispatchGo_ok_of_none worker h 20 0]
  rfl

/-- Claim C4 witness: the constantly-nil worker. -/
theorem dispatch_adaptive_witness :
    Dispatch ⟨0, 40⟩ (fun _ => none) 20 = (.ok, 20) :=
  dispatch_adaptive (fun _ => none) (fun _ => rfl)

end Docforge
